import Mathlib

/-!
Verification of the MKAI voice-interaction loop (`main.py`).

The program is a single Python class `MKAI` plus a `__main__` session loop.
External collaborators (Whisper speech recognition, the sentiment classifier,
Google Cloud TTS, gTTS, the audio devices, the console) are modelled as
oracle inputs supplied per call; the class's own mutable state
(`use_google_tts`, `tts_client`, `feedback_db`) is threaded explicitly.
-/

namespace MKAI

/-- Substring test on character lists: `isPre kw l` holds when `kw` is an
initial segment of `l`.  Building block for Python's `kw in text`. -/
def isPre : List Char → List Char → Bool
  | [], _ => true
  | _ :: _, [] => false
  | a :: as, b :: bs => a == b && isPre as bs

/-- `occursIn kw text` is Python's substring operator `kw in text` on the
underlying character lists. -/
def occursIn (kw : List Char) : List Char → Bool
  | [] => isPre kw []
  | b :: bs => isPre kw (b :: bs) || occursIn kw bs

/-- Keywords of the `egyptian` entry of `self.dialect_map` (main.py line 48). -/
def egyptian_keywords : List String := ["مش", "هعمل", "عاوز"]

/-- Keywords of the `gulf` entry of `self.dialect_map` (main.py line 49). -/
def gulf_keywords : List String := ["شلونك", "وينك", "ابشر"]

/-- Keywords of the `levantine` entry of `self.dialect_map` (main.py line 50). -/
def levantine_keywords : List String := ["شو أخبارك", "مشان الله", "يما"]

/-- `self.dialect_map`, in the dict's insertion order (CPython iterates
dicts in insertion order, so this is also the iteration order of the
`for dialect, keywords in self.dialect_map.items()` loop). -/
def dialect_map : List (String × List String) :=
  [("egyptian", egyptian_keywords),
   ("gulf", gulf_keywords),
   ("levantine", levantine_keywords)]

/-- `any(keyword in text for keyword in keywords)` from `detect_dialect`. -/
def keywordMatch (text : String) (keywords : List String) : Bool :=
  keywords.any (fun kw => occursIn kw.data text.data)

/-- `MKAI.detect_dialect` (main.py lines 68-73): first dialect in the map
whose keyword list has a member occurring as a substring of `text`,
else `"msa"`. -/
def detect_dialect (text : String) : String :=
  match dialect_map.find? (fun p => keywordMatch text p.2) with
  | some p => p.1
  | none => "msa"

/-- The Arabic diacritic marks (harakat: fathatan through sukun, U+064B-U+0652,
plus superscript alef U+0670) removed by the external normalizer
`camel_tools.utils.dediac.dediac_ar`.  The normalizer is an external
collaborator of the repository; the spec describes it as "Arabic text
normalization (diacritic removal): input = text; output = normalized text". -/
def arabicDiacritics : List Char :=
  [Char.ofNat 0x064B, Char.ofNat 0x064C, Char.ofNat 0x064D, Char.ofNat 0x064E,
   Char.ofNat 0x064F, Char.ofNat 0x0650, Char.ofNat 0x0651, Char.ofNat 0x0652,
   Char.ofNat 0x0670]

/-- Model of the external `dediac_ar` collaborator: drop every Arabic
diacritic mark from the text, keep everything else unchanged. -/
def dediac_ar (text : String) : String :=
  ⟨text.data.filter (fun c => !(arabicDiacritics.contains c))⟩

/-- `MKAI.speech_to_text` (main.py lines 57-66), with the Whisper model's
output abstracted as the input `transcript`.  The code computes
`dialect = self.detect_dialect(text)` on the raw transcript `text` and then
returns `dediac_ar(text), dialect`. -/
def speech_to_text (transcript : String) : String × String :=
  let dialect := detect_dialect transcript
  (dediac_ar transcript, dialect)

/-- The `responses` dict of `MKAI.generate_response` (main.py lines 122-135),
in insertion order. -/
def responses : List (String × List String) :=
  [("positive",
    ["أمر رائع! هل تريد المزيد من المساعدة؟",
     "هذا ممتع! ماذا تريد أن تفعل بعد ذلك؟"]),
   ("negative",
    ["أنا آسف لسماع ذلك. هل تريد التحدث أكثر؟",
     "يبدو أن هذا صعب. كيف يمكنني المساعدة؟"]),
   ("neutral",
    ["فهمت. ماذا تريد أن تفعل الآن؟",
     "حسنًا، ما الخطوة التالية؟"])]

/-- `MKAI.generate_response` (main.py lines 120-138): Python's
`responses[emotion][0]`.  A missing key raises `KeyError`
(the spec's `UnknownEmotionCategory`), modelled as `none`; the unused
`text` parameter is kept from the source signature. -/
def generate_response (text emotion : String) : Option String :=
  let _ := text
  match responses.find? (fun p => p.1 == emotion) with
  | some p => p.2.head?
  | none => none

/-- `texttospeech.VoiceSelectionParams` as built in `MKAI.text_to_speech`
(main.py lines 85-89); `ssml_gender` is the constant `MALE` and is omitted. -/
structure VoiceSelectionParams where
  language_code : String
  name : String
deriving DecidableEq

/-- Voice construction from main.py lines 85-89:
`name="ar-XA-Standard-B" if emotion == 'positive' else "ar-XA-Standard-D"`. -/
def voiceFor (emotion : String) : VoiceSelectionParams :=
  { language_code := "ar-XA",
    name := if emotion == "positive" then "ar-XA-Standard-B" else "ar-XA-Standard-D" }

/-- `texttospeech.AudioConfig` as built in `MKAI.text_to_speech`
(main.py lines 91-95).  The speaking rate is a decimal literal (1.2 or 1.0)
recorded here in tenths to stay in exact arithmetic. -/
structure AudioConfig where
  speaking_rate_x10 : Nat
  pitch : Int
deriving DecidableEq

/-- Audio-config construction from main.py lines 91-95:
`speaking_rate=1.2 if emotion == 'happy' else 1.0`,
`pitch=2 if emotion == 'excited' else 0`. -/
def audioConfigFor (emotion : String) : AudioConfig :=
  { speaking_rate_x10 := if emotion == "happy" then 12 else 10,
    pitch := if emotion == "excited" then 2 else 0 }

/-- A feedback entry as appended by `MKAI.save_feedback`
(main.py lines 140-147); `datetime.now()` is abstracted to a `Nat` clock. -/
structure FeedbackRecord where
  timestamp : Nat
  input : String
  response : String
  correction : String
deriving DecidableEq

/-- The mutable state of the `MKAI` instance: the TTS availability flag
`self.use_google_tts`, whether `self.tts_client` is non-`None`, and the
in-memory `self.feedback_db` list (`self.emotion_log` is never written
after `__init__` and is omitted). -/
structure State where
  use_google_tts : Bool
  tts_client : Bool
  feedback_db : List FeedbackRecord
deriving DecidableEq

/-- Per-call outcome oracle for the two external synthesis backends:
whether `self.tts_client.synthesize_speech` returns without raising, and
whether the gTTS fallback saves without raising. -/
structure SynthEnv where
  googleOk : Bool
  gttsOk : Bool
deriving DecidableEq

/-- `MKAI.text_to_speech` (main.py lines 80-118).  If
`self.use_google_tts and self.tts_client`, the primary (Google) backend is
invoked with `voiceFor emotion` / `audioConfigFor emotion`; on success the
result is written to `"response.mp3"`.  On a primary exception the handler
sets `self.use_google_tts = False` and control falls through to the gTTS
fallback block, which is also reached directly when the guard is false.  A
fallback exception yields `return None`. -/
def text_to_speech (st : State) (env : SynthEnv) (text emotion : String) :
    State × Option String :=
  let _ := (text, voiceFor emotion, audioConfigFor emotion)
  if st.use_google_tts && st.tts_client then
    if env.googleOk then
      (st, some "response.mp3")
    else
      let st' := { st with use_google_tts := false }
      if env.gttsOk then (st', some "response.mp3") else (st', none)
  else
    if env.gttsOk then (st, some "response.mp3") else (st, none)

/-- `MKAI.save_feedback` (main.py lines 140-147): append one record to
`self.feedback_db`. -/
def save_feedback (st : State) (now : Nat)
    (user_input bot_response correction : String) : State :=
  { st with
    feedback_db := st.feedback_db ++
      [{ timestamp := now, input := user_input,
         response := bot_response, correction := correction }] }

/-- One event at the `input(...)` prompt of `MKAI.get_text_input`: either the
user enters a line, or a `KeyboardInterrupt` is raised while waiting. -/
inductive TextEvent where
  | entry (s : String)
  | interrupt
deriving DecidableEq

/-- Result of `MKAI.get_text_input`: the Python `(None, None)` pair (the Exit
value) or an accepted `(text, 'msa')` pair. -/
inductive TextInputResult where
  | exitReq
  | accepted (text dialect : String)
deriving DecidableEq

/-- Python's `str.lower`, character by character (the program only compares
lowercased input against the ASCII sentinels `'exit'` and `'y'`, and Arabic
has no letter case, so ASCII lowercasing is the relevant behavior). -/
def pyLower (s : String) : String :=
  ⟨s.data.map Char.toLower⟩

/-- Python truthiness of `text.strip()`: true when `text` has at least one
non-whitespace character. -/
def strippedNonempty (text : String) : Bool :=
  text.data.any (fun c => !c.isWhitespace)

/-- `MKAI.get_text_input` (main.py lines 168-179), with the successive
console events supplied as a list.  Each iteration of the `while True` loop
consumes one event: `text.lower() == 'exit'` returns `(None, None)`; then a
truthy `text.strip()` returns `(text, 'msa')`; otherwise the loop re-prompts;
`KeyboardInterrupt` returns `(None, None)`.  `none` means the event list ran
out while the code would still be blocked on the console. -/
def get_text_input : List TextEvent → Option TextInputResult
  | [] => none
  | TextEvent.interrupt :: _ => some TextInputResult.exitReq
  | TextEvent.entry s :: rest =>
    if pyLower s == "exit" then some TextInputResult.exitReq
    else if strippedNonempty s then some (TextInputResult.accepted s "msa")
    else get_text_input rest

/-- The external events consumed by one iteration of the `__main__` loop
(main.py lines 186-220): whether `record_audio` succeeds, the Whisper
transcript (used only when it does), the console events of the text
fallback (used only when it does not), the sentiment classifier's label,
the synthesis-backend oracle, the feedback rating line, the correction
line, and the current clock value. -/
structure TurnInput where
  captureOk : Bool
  transcript : String
  textEvents : List TextEvent
  emotion : String
  synthEnv : SynthEnv
  rating : String
  correction : String
  now : Nat

/-- How one iteration of the `__main__` loop ends.  `cont`: the turn ran to
the feedback prompt and the loop repeats.  `exitLoop`: the `break` after
`get_text_input` returned `(None, None)`.  `crash`: an exception other than
`KeyboardInterrupt` escapes the loop body (a `KeyError` from
`generate_response`, or `sf.read(None)` when `text_to_speech` returned
`None`) — the `try` only catches `KeyboardInterrupt`, so the process dies.
`blocked`: the modelled console-event list ran out. -/
inductive TurnOutcome where
  | cont
  | exitLoop
  | crash
  | blocked
deriving DecidableEq

/-- The tail of a loop iteration once `text` is acquired (main.py lines
200-220): classify (label supplied by `inp.emotion`), `generate_response`
(a `KeyError` crashes), `text_to_speech`, then `sf.read(response_audio)` —
which raises if `response_audio` is `None` — playback, and the feedback
prompt, where `input(...).lower() != 'y'` appends one record. -/
def processText (st : State) (inp : TurnInput) (text : String) :
    State × TurnOutcome :=
  match generate_response text inp.emotion with
  | none => (st, TurnOutcome.crash)
  | some response =>
    let res := text_to_speech st inp.synthEnv response inp.emotion
    match res.2 with
    | none => (res.1, TurnOutcome.crash)
    | some _ =>
      if pyLower inp.rating == "y" then (res.1, TurnOutcome.cont)
      else (save_feedback res.1 inp.now text response inp.correction,
            TurnOutcome.cont)

/-- One iteration of the `while True` loop in `__main__` (main.py lines
186-220): try `record_audio`; on success transcribe via `speech_to_text`
and continue with the normalized text; on failure fall back to
`get_text_input`, `break`-ing out of the loop when it returns
`(None, None)`. -/
def loopTurn (st : State) (inp : TurnInput) : State × TurnOutcome :=
  if inp.captureOk then
    let td := speech_to_text inp.transcript
    processText st inp td.1
  else
    match get_text_input inp.textEvents with
    | none => (st, TurnOutcome.blocked)
    | some TextInputResult.exitReq => (st, TurnOutcome.exitLoop)
    | some (TextInputResult.accepted t _) => processText st inp t

/-- Iterated `text_to_speech` over a list of later calls, tracking only the
state (main.py never resets `use_google_tts` outside `__init__`). -/
def runCalls (st : State) : List (SynthEnv × String × String) → State
  | [] => st
  | (env, t, e) :: rest => runCalls (text_to_speech st env t e).1 rest

/-- The state at the start of each call of `runCalls`. -/
def statesAlong (st : State) : List (SynthEnv × String × String) → List State
  | [] => []
  | (env, t, e) :: rest => st :: statesAlong (text_to_speech st env t e).1 rest

/-- The guard `self.use_google_tts and self.tts_client` of
`MKAI.text_to_speech`: true exactly when a call entering in state `st`
attempts the primary (Google) backend. -/
def attemptsPrimary (st : State) : Bool :=
  st.use_google_tts && st.tts_client

/-! ## Helper lemmas -/

/-- With the flag already cleared, `text_to_speech` leaves the state
untouched and is the fallback backend alone. -/
theorem text_to_speech_flag_off (st : State) (env : SynthEnv) (t e : String)
    (h : st.use_google_tts = false) :
    text_to_speech st env t e =
      (st, if env.gttsOk then some "response.mp3" else none) := by
  simp only [text_to_speech, h, Bool.false_and, Bool.false_eq_true, if_false]
  split <;> rfl

/-- `runCalls` never re-sets a cleared flag. -/
theorem runCalls_flag_off (calls : List (SynthEnv × String × String))
    (st : State) (h : st.use_google_tts = false) :
    (runCalls st calls).use_google_tts = false := by
  induction calls generalizing st with
  | nil => exact h
  | cons c rest ih =>
    obtain ⟨env, t, e⟩ := c
    rw [runCalls, text_to_speech_flag_off st env t e h]
    exact ih st h

/-- Every state along `runCalls` from a cleared-flag state has the flag
cleared. -/
theorem statesAlong_flag_off (calls : List (SynthEnv × String × String))
    (st : State) (h : st.use_google_tts = false) :
    ∀ s ∈ statesAlong st calls, s.use_google_tts = false := by
  induction calls generalizing st with
  | nil => intro s hs; simp [statesAlong] at hs
  | cons c rest ih =>
    obtain ⟨env, t, e⟩ := c
    intro s hs
    rw [statesAlong, text_to_speech_flag_off st env t e h] at hs
    rcases List.mem_cons.mp hs with rfl | hs'
    · exact h
    · exact ih st h s hs'

/-- `text_to_speech` never touches `feedback_db`. -/
theorem text_to_speech_db (st : State) (env : SynthEnv) (t e : String) :
    (text_to_speech st env t e).1.feedback_db = st.feedback_db := by
  simp only [text_to_speech]
  split
  · split
    · rfl
    · split <;> rfl
  · split <;> rfl

/-- `processText` never produces the `break` outcome: the only `break` in
`__main__` is behind the text-input fallback. -/
theorem processText_ne_exitLoop (st : State) (inp : TurnInput) (text : String) :
    (processText st inp text).2 ≠ TurnOutcome.exitLoop := by
  simp only [processText]
  split
  · simp
  · split
    · simp
    · split <;> simp

/-! ## Claims -/

/-- C1: once a `text_to_speech` call attempts the primary backend and that
call fails, `use_google_tts` is cleared; it stays cleared through every
later sequence of `text_to_speech` calls, and each of those later calls
skips the primary backend (`attemptsPrimary` is false at its entry state)
and behaves as the fallback backend alone. -/
theorem tts_monotonic_degradation (st : State) (env : SynthEnv) (t e : String)
    (calls : List (SynthEnv × String × String))
    (hflag : st.use_google_tts = true) (hclient : st.tts_client = true)
    (hfail : env.googleOk = false) :
    (text_to_speech st env t e).1.use_google_tts = false ∧
    (runCalls (text_to_speech st env t e).1 calls).use_google_tts = false ∧
    ∀ s ∈ statesAlong (text_to_speech st env t e).1 calls,
      attemptsPrimary s = false ∧
      ∀ env' t' e', text_to_speech s env' t' e' =
        (s, if env'.gttsOk then some "response.mp3" else none) := by
  have h1 : (text_to_speech st env t e).1.use_google_tts = false := by
    simp only [text_to_speech, hflag, hclient, hfail, Bool.and_self,
      if_true, Bool.false_eq_true, if_false]
    split <;> rfl
  refine ⟨h1, runCalls_flag_off calls _ h1, ?_⟩
  intro s hs
  have hs0 : s.use_google_tts = false := statesAlong_flag_off calls _ h1 s hs
  refine ⟨?_, fun env' t' e' => text_to_speech_flag_off s env' t' e' hs0⟩
  simp [attemptsPrimary, hs0]

/-- Witness for C1 at a concrete run: usable client state, one failing
primary call, one subsequent call. -/
theorem tts_monotonic_degradation_witness :
    (State.use_google_tts ⟨true, true, []⟩ = true) ∧
    (State.tts_client ⟨true, true, []⟩ = true) ∧
    (SynthEnv.googleOk ⟨false, true⟩ = false) ∧
    ((text_to_speech ⟨true, true, []⟩ ⟨false, true⟩ "سلام" "positive").1.use_google_tts = false ∧
     (runCalls (text_to_speech ⟨true, true, []⟩ ⟨false, true⟩ "سلام" "positive").1
        [(⟨true, true⟩, "سلام", "neutral")]).use_google_tts = false ∧
     ∀ s ∈ statesAlong (text_to_speech ⟨true, true, []⟩ ⟨false, true⟩ "سلام" "positive").1
        [(⟨true, true⟩, "سلام", "neutral")],
       attemptsPrimary s = false ∧
       ∀ env' t' e', text_to_speech s env' t' e' =
         (s, if env'.gttsOk then some "response.mp3" else none)) :=
  ⟨rfl, rfl, rfl,
   tts_monotonic_degradation ⟨true, true, []⟩ ⟨false, true⟩ "سلام" "positive"
     [(⟨true, true⟩, "سلام", "neutral")] rfl rfl rfl⟩

/-- C2 (bug evidence): in a turn where both synthesis backends fail,
`text_to_speech` does return `None`, but the loop iteration ends in a crash
— `__main__` calls `sf.read(response_audio)` unconditionally (main.py line
212), `sf.read(None)` raises, and the surrounding `try` catches only
`KeyboardInterrupt` — instead of skipping playback and reaching the
feedback prompt as the spec requires. -/
theorem synthesis_unavailable_crashes :
    (text_to_speech ⟨false, false, []⟩ ⟨false, false⟩
      "فهمت. ماذا تريد أن تفعل الآن؟" "neutral").2 = none ∧
    (loopTurn ⟨false, false, []⟩
      ⟨true, "مرحبا", [], "neutral", ⟨false, false⟩, "y", "", 0⟩).2 =
      TurnOutcome.crash ∧
    TurnOutcome.crash ≠ TurnOutcome.cont :=
  ⟨rfl, rfl, by decide⟩

/-- C10: in a turn whose audio capture succeeds, the loop can never take the
user-initiated `break` — whatever the transcript says (even "exit"), the
voice path has no exit check; `exitLoop` is reachable only through the
text-entry fallback. -/
theorem voice_exit_unreachable (st : State) (inp : TurnInput)
    (h : inp.captureOk = true) :
    (loopTurn st inp).2 ≠ TurnOutcome.exitLoop := by
  unfold loopTurn
  rw [if_pos h]
  exact processText_ne_exitLoop st inp _

/-- Witness for C10: audio capture succeeds and the user says "exit";
the turn still does not end in `exitLoop`. -/
theorem voice_exit_unreachable_witness :
    (TurnInput.captureOk ⟨true, "exit", [], "neutral", ⟨true, true⟩, "y", "", 0⟩ = true) ∧
    (loopTurn ⟨true, true, []⟩
      ⟨true, "exit", [], "neutral", ⟨true, true⟩, "y", "", 0⟩).2 ≠
      TurnOutcome.exitLoop :=
  ⟨rfl, voice_exit_unreachable ⟨true, true, []⟩
    ⟨true, "exit", [], "neutral", ⟨true, true⟩, "y", "", 0⟩ rfl⟩

/-- `get_text_input` tags every accepted entry with the `'msa'` dialect
(main.py line 176). -/
theorem get_text_input_dialect (evs : List TextEvent) (t d : String)
    (h : get_text_input evs = some (TextInputResult.accepted t d)) :
    d = "msa" := by
  induction evs with
  | nil => simp [get_text_input] at h
  | cons ev rest ih =>
    cases ev with
    | interrupt => simp [get_text_input] at h
    | entry s =>
      rw [get_text_input] at h
      split at h
      · simp at h
      · split at h
        · rw [Option.some.injEq] at h
          cases h
          rfl
        · exact ih h

/-- Feedback behavior of the post-input part of a turn: reaching the
feedback prompt appends exactly one record — with this turn's clock value,
the acquired `text`, the response produced by `generate_response` on it,
and the user's correction — for a non-`'y'` rating, and none for a `'y'`
rating. -/
theorem processText_feedback (st : State) (inp : TurnInput) (text : String)
    (h : (processText st inp text).2 = TurnOutcome.cont) :
    (pyLower inp.rating = "y" →
      (processText st inp text).1.feedback_db = st.feedback_db) ∧
    (pyLower inp.rating ≠ "y" →
      ∃ r, generate_response text inp.emotion = some r ∧
        (processText st inp text).1.feedback_db =
          st.feedback_db ++
            [{ timestamp := inp.now, input := text, response := r,
               correction := inp.correction }]) := by
  rcases hg : generate_response text inp.emotion with _ | response
  · exfalso
    simp [processText, hg] at h
  · rcases ha : (text_to_speech st inp.synthEnv response inp.emotion).2 with _ | a
    · exfalso
      simp [processText, hg, ha] at h
    · have hdb := text_to_speech_db st inp.synthEnv response inp.emotion
      by_cases hr : pyLower inp.rating = "y"
      · constructor
        · intro _
          simp [processText, hg, ha, hr, hdb]
        · intro hne
          exact absurd hr hne
      · constructor
        · intro hy
          exact absurd hy hr
        · intro _
          refine ⟨response, rfl, ?_⟩
          simp [processText, hg, ha, hr, save_feedback, hdb]

/-- C7: in every turn that reaches the feedback prompt (outcome `cont`), the
feedback sequence grows by exactly one record — carrying this turn's clock
value, the turn's acquired input text (the normalized transcript on the
voice path, the accepted entry on the text path), the bot response that
`generate_response` produced from that text, and the user's correction,
appended at the end with everything before it unchanged — when the rating
is not `'y'` (after the code's `.lower()`), and grows by zero records when
it is `'y'`. -/
theorem feedback_growth (st : State) (inp : TurnInput)
    (h : (loopTurn st inp).2 = TurnOutcome.cont) :
    (pyLower inp.rating = "y" →
      (loopTurn st inp).1.feedback_db = st.feedback_db) ∧
    (pyLower inp.rating ≠ "y" →
      ∃ t r,
        (inp.captureOk = true → t = (speech_to_text inp.transcript).1) ∧
        (inp.captureOk = false →
          get_text_input inp.textEvents =
            some (TextInputResult.accepted t "msa")) ∧
        generate_response t inp.emotion = some r ∧
        (loopTurn st inp).1.feedback_db =
          st.feedback_db ++
            [{ timestamp := inp.now, input := t, response := r,
               correction := inp.correction }] ∧
        (loopTurn st inp).1.feedback_db.length =
          st.feedback_db.length + 1) := by
  by_cases hc : inp.captureOk = true
  · have hl : loopTurn st inp = processText st inp (speech_to_text inp.transcript).1 := by
      unfold loopTurn
      rw [if_pos hc]
    rw [hl] at h ⊢
    have hp := processText_feedback st inp _ h
    refine ⟨hp.1, fun hne => ?_⟩
    obtain ⟨r, hgen, hr⟩ := hp.2 hne
    exact ⟨_, r, fun _ => rfl, fun hcf => absurd hcf (by simp [hc]),
      hgen, hr, by rw [hr]; simp⟩
  · have hcf : inp.captureOk = false := by
      cases hcv : inp.captureOk
      · rfl
      · exact absurd hcv hc
    rcases hgi : get_text_input inp.textEvents with _ | res
    · exfalso
      have hl : loopTurn st inp = (st, TurnOutcome.blocked) := by
        unfold loopTurn
        rw [if_neg hc, hgi]
      rw [hl] at h
      exact absurd h (by simp)
    · rcases res with _ | ⟨t, d⟩
      · exfalso
        have hl : loopTurn st inp = (st, TurnOutcome.exitLoop) := by
          unfold loopTurn
          rw [if_neg hc, hgi]
        rw [hl] at h
        exact absurd h (by simp)
      · have hd : d = "msa" := get_text_input_dialect inp.textEvents t d hgi
        subst hd
        have hl : loopTurn st inp = processText st inp t := by
          unfold loopTurn
          rw [if_neg hc, hgi]
        rw [hl] at h ⊢
        have hp := processText_feedback st inp t h
        refine ⟨hp.1, fun hne => ?_⟩
        obtain ⟨r, hgen, hr⟩ := hp.2 hne
        exact ⟨t, r, fun hct => absurd hct hc, fun _ => rfl,
          hgen, hr, by rw [hr]; simp⟩

/-- Witness for C7: two concrete completed voice turns, one rated `'y'`
(no growth), one rated `'N'` (growth by exactly the record built from the
turn's transcript, the generated response and the correction). -/
theorem feedback_growth_witness :
    ((loopTurn ⟨true, true, []⟩
        ⟨true, "مرحبا", [], "neutral", ⟨true, true⟩, "y", "", 3⟩).2 =
      TurnOutcome.cont) ∧
    ((loopTurn ⟨true, true, []⟩
        ⟨true, "مرحبا", [], "neutral", ⟨true, true⟩, "y", "", 3⟩).1.feedback_db = []) ∧
    ((loopTurn ⟨true, true, []⟩
        ⟨true, "مرحبا", [], "neutral", ⟨true, true⟩, "N", "بديل", 3⟩).2 =
      TurnOutcome.cont) ∧
    ((loopTurn ⟨true, true, []⟩
        ⟨true, "مرحبا", [], "neutral", ⟨true, true⟩, "N", "بديل", 3⟩).1.feedback_db =
      [{ timestamp := 3, input := "مرحبا",
         response := "فهمت. ماذا تريد أن تفعل الآن؟", correction := "بديل" }]) := by
  refine ⟨rfl, ?_, rfl, ?_⟩
  · exact (feedback_growth ⟨true, true, []⟩
      ⟨true, "مرحبا", [], "neutral", ⟨true, true⟩, "y", "", 3⟩ rfl).1 rfl
  · obtain ⟨t, r, h1, _, h3, h4, _⟩ := (feedback_growth ⟨true, true, []⟩
      ⟨true, "مرحبا", [], "neutral", ⟨true, true⟩, "N", "بديل", 3⟩ rfl).2
      (by decide)
    have ht : t = "مرحبا" := (h1 rfl).trans rfl
    subst ht
    rw [show generate_response "مرحبا" "neutral" =
      some "فهمت. ماذا تريد أن تفعل الآن؟" from rfl, Option.some.injEq] at h3
    subst h3
    rw [h4]
    rfl

/-- C3: for each key of the response table `generate_response` returns the
first candidate of that key's list (in particular `"positive"` yields
exactly the first positive string), and for any emotion outside the table
it fails (`KeyError`, the spec's `UnknownEmotionCategory`) instead of
returning a default. -/
theorem generate_response_table (t e : String)
    (he : e ∉ (["positive", "negative", "neutral"] : List String)) :
    generate_response t "positive" = some "أمر رائع! هل تريد المزيد من المساعدة؟" ∧
    generate_response t "negative" = some "أنا آسف لسماع ذلك. هل تريد التحدث أكثر؟" ∧
    generate_response t "neutral" = some "فهمت. ماذا تريد أن تفعل الآن؟" ∧
    generate_response t e = none := by
  refine ⟨rfl, rfl, rfl, ?_⟩
  simp only [List.mem_cons, List.not_mem_nil, or_false, not_or] at he
  obtain ⟨h1, h2, h3⟩ := he
  have b1 : (("positive" : String) == e) = false :=
    beq_eq_false_iff_ne.mpr (Ne.symm h1)
  have b2 : (("negative" : String) == e) = false :=
    beq_eq_false_iff_ne.mpr (Ne.symm h2)
  have b3 : (("neutral" : String) == e) = false :=
    beq_eq_false_iff_ne.mpr (Ne.symm h3)
  simp [generate_response, responses, List.find?, b1, b2, b3]

/-- Witness for C3 at the out-of-vocabulary label `"happy"`. -/
theorem generate_response_table_witness :
    (("happy" : String) ∉ (["positive", "negative", "neutral"] : List String)) ∧
    (generate_response "نص" "positive" = some "أمر رائع! هل تريد المزيد من المساعدة؟" ∧
     generate_response "نص" "negative" = some "أنا آسف لسماع ذلك. هل تريد التحدث أكثر؟" ∧
     generate_response "نص" "neutral" = some "فهمت. ماذا تريد أن تفعل الآن؟" ∧
     generate_response "نص" "happy" = none) :=
  ⟨by decide, generate_response_table "نص" "happy" (by decide)⟩

/-- C4: `detect_dialect` returns `"msa"` when no configured keyword occurs
in the text, and otherwise returns the dialect at the first index of
`dialect_map` (in its fixed iteration order) whose keyword list has a
match. -/
theorem detect_dialect_spec (text : String) :
    ((∀ p ∈ dialect_map, keywordMatch text p.2 = false) →
      detect_dialect text = "msa") ∧
    (∀ i (hi : i < dialect_map.length),
      keywordMatch text (dialect_map.get ⟨i, hi⟩).2 = true →
      (∀ j (hj : j < i),
        keywordMatch text (dialect_map.get ⟨j, Nat.lt_trans hj hi⟩).2 = false) →
      detect_dialect text = (dialect_map.get ⟨i, hi⟩).1) := by
  constructor
  · intro hall
    unfold detect_dialect
    rw [List.find?_eq_none.mpr (fun p hp => by simp [hall p hp])]
  · intro i hi hmatch hbefore
    match i, hi with
    | 0, hi =>
      have h0 : keywordMatch text egyptian_keywords = true := hmatch
      show detect_dialect text = "egyptian"
      simp [detect_dialect, dialect_map, List.find?, h0]
    | 1, hi =>
      have hb0 : keywordMatch text egyptian_keywords = false :=
        hbefore 0 (by omega)
      have h1 : keywordMatch text gulf_keywords = true := hmatch
      show detect_dialect text = "gulf"
      simp [detect_dialect, dialect_map, List.find?, hb0, h1]
    | 2, hi =>
      have hb0 : keywordMatch text egyptian_keywords = false :=
        hbefore 0 (by omega)
      have hb1 : keywordMatch text gulf_keywords = false :=
        hbefore 1 (by omega)
      have h2 : keywordMatch text levantine_keywords = true := hmatch
      show detect_dialect text = "levantine"
      simp [detect_dialect, dialect_map, List.find?, hb0, hb1, h2]
    | n + 3, hi =>
      have hlen : dialect_map.length = 3 := rfl
      omega

/-- Witness for C4: a keyword-free text yields `"msa"`; a text whose first
matching entry is `gulf` (index 1) yields `"gulf"`. -/
theorem detect_dialect_spec_witness :
    detect_dialect "hello there" = "msa" ∧
    detect_dialect "وينك حبيبي" = "gulf" := by
  constructor
  · exact (detect_dialect_spec "hello there").1 (by decide)
  · refine (detect_dialect_spec "وينك حبيبي").2 1 (by decide) (by decide) ?_
    intro j hj
    have hj0 : j = 0 := by omega
    subst hj0
    show keywordMatch "وينك حبيبي" egyptian_keywords = false
    decide

/-- C9: ties between dialects are resolved by the map's insertion order —
an egyptian match wins outright; a gulf match wins when egyptian has none;
levantine only matches when neither earlier dialect does. -/
theorem dialect_tie_order (text : String) :
    (keywordMatch text egyptian_keywords = true →
      detect_dialect text = "egyptian") ∧
    (keywordMatch text egyptian_keywords = false →
      keywordMatch text gulf_keywords = true →
      detect_dialect text = "gulf") ∧
    (keywordMatch text egyptian_keywords = false →
      keywordMatch text gulf_keywords = false →
      keywordMatch text levantine_keywords = true →
      detect_dialect text = "levantine") := by
  refine ⟨fun h0 => ?_, fun hb0 h1 => ?_, fun hb0 hb1 h2 => ?_⟩
  · simp [detect_dialect, dialect_map, List.find?, h0]
  · simp [detect_dialect, dialect_map, List.find?, hb0, h1]
  · simp [detect_dialect, dialect_map, List.find?, hb0, hb1, h2]

/-- Witness for C9: a text matching keywords of all three dialects is
tagged `"egyptian"`. -/
theorem dialect_tie_order_witness :
    keywordMatch "عاوز وينك يما" egyptian_keywords = true ∧
    keywordMatch "عاوز وينك يما" gulf_keywords = true ∧
    keywordMatch "عاوز وينك يما" levantine_keywords = true ∧
    detect_dialect "عاوز وينك يما" = "egyptian" :=
  ⟨by decide, by decide, by decide,
   (dialect_tie_order "عاوز وينك يما").1 (by decide)⟩

/-- C6: `get_text_input` returns the Exit value for an entry equal to
"exit" after lowercasing and for a `KeyboardInterrupt`; it re-prompts
(recurses on the remaining events) on an entry with no non-whitespace
character; any other entry is returned paired with the `'msa'` dialect. -/
theorem get_text_input_spec (s : String) (rest : List TextEvent) :
    (get_text_input (TextEvent.interrupt :: rest) =
      some TextInputResult.exitReq) ∧
    (pyLower s = "exit" →
      get_text_input (TextEvent.entry s :: rest) =
        some TextInputResult.exitReq) ∧
    (pyLower s ≠ "exit" → strippedNonempty s = false →
      get_text_input (TextEvent.entry s :: rest) = get_text_input rest) ∧
    (pyLower s ≠ "exit" → strippedNonempty s = true →
      get_text_input (TextEvent.entry s :: rest) =
        some (TextInputResult.accepted s "msa")) := by
  refine ⟨rfl, fun hx => ?_, fun hx hw => ?_, fun hx hw => ?_⟩
  · simp [get_text_input, hx]
  · simp [get_text_input, hx, hw]
  · simp [get_text_input, hx, hw]

/-- Witness for C6: an interruption, a cased "EXIT", a whitespace-only
re-prompt, and an ordinary entry. -/
theorem get_text_input_spec_witness :
    get_text_input [TextEvent.interrupt] = some TextInputResult.exitReq ∧
    pyLower "EXIT" = "exit" ∧
    get_text_input [TextEvent.entry "EXIT"] = some TextInputResult.exitReq ∧
    get_text_input [TextEvent.entry "  ", TextEvent.entry "سلام"] =
      get_text_input [TextEvent.entry "سلام"] ∧
    get_text_input [TextEvent.entry "سلام"] =
      some (TextInputResult.accepted "سلام" "msa") :=
  ⟨(get_text_input_spec "x" []).1,
   by decide,
   (get_text_input_spec "EXIT" []).2.1 (by decide),
   (get_text_input_spec "  " [TextEvent.entry "سلام"]).2.2.1
     (by decide) (by decide),
   (get_text_input_spec "سلام" []).2.2.2 (by decide) (by decide)⟩

/-- C5 counterexample: for the transcript `م + fatha + ش`, `speech_to_text`
tags the dialect `"msa"` (detection runs on the raw transcript, where the
fatha breaks the substring match of the keyword `"مش"`), while
`detect_dialect` on the diacritic-stripped transcript yields
`"egyptian"` — so the returned dialect is not the detector applied to the
normalized text. -/
theorem speech_to_text_dialect_counterexample :
    (speech_to_text ⟨['م', Char.ofNat 0x064E, 'ش']⟩).2 = "msa" ∧
    detect_dialect (dediac_ar ⟨['م', Char.ofNat 0x064E, 'ش']⟩) = "egyptian" ∧
    (speech_to_text ⟨['م', Char.ofNat 0x064E, 'ش']⟩).2 ≠
      detect_dialect (dediac_ar ⟨['م', Char.ofNat 0x064E, 'ش']⟩) :=
  ⟨rfl, rfl, by decide⟩

/-- C5 amended: `speech_to_text` strips diacritics from the returned text
but runs the Dialect Detector on the raw transcript, before normalization;
the returned dialect therefore equals `detect_dialect` of the raw
transcript, and agrees with `detect_dialect` of the normalized text
whenever the transcript contains no diacritic (normalization is then the
identity). -/
theorem speech_to_text_dialect_amended (t : String)
    (h : t.data.all (fun c => !(arabicDiacritics.contains c)) = true) :
    (speech_to_text t).1 = dediac_ar t ∧
    (speech_to_text t).2 = detect_dialect t ∧
    (speech_to_text t).2 = detect_dialect (dediac_ar t) := by
  have hid : dediac_ar t = t := by
    unfold dediac_ar
    have hf : t.data.filter (fun c => !(arabicDiacritics.contains c)) = t.data :=
      List.filter_eq_self.mpr (fun a ha => List.all_eq_true.mp h a ha)
    rw [hf]
  exact ⟨rfl, rfl, by rw [hid]; exact rfl⟩

/-- Witness for C5's amended statement at a diacritic-free transcript. -/
theorem speech_to_text_dialect_amended_witness :
    ("مش عارف".data.all (fun c => !(arabicDiacritics.contains c)) = true) ∧
    ((speech_to_text "مش عارف").1 = dediac_ar "مش عارف" ∧
     (speech_to_text "مش عارف").2 = detect_dialect "مش عارف" ∧
     (speech_to_text "مش عارف").2 = detect_dialect (dediac_ar "مش عارف")) :=
  ⟨by decide, speech_to_text_dialect_amended "مش عارف" (by decide)⟩

/-- C8 counterexample: the audio configuration is identical for the three
classifier labels — `speaking_rate=1.0`, `pitch=0` for each of positive,
negative and neutral — so rate and pitch do not vary with the emotion. -/
theorem synthesis_params_counterexample :
    audioConfigFor "positive" = audioConfigFor "negative" ∧
    audioConfigFor "negative" = audioConfigFor "neutral" ∧
    audioConfigFor "positive" = { speaking_rate_x10 := 10, pitch := 0 } :=
  ⟨rfl, rfl, rfl⟩

/-- C8 amended: the voice name does distinguish positive
(`ar-XA-Standard-B`) from non-positive (`ar-XA-Standard-D`), but the
speaking rate and pitch are keyed to the labels `'happy'` and `'excited'`,
which lie outside the classifier vocabulary, so over
{positive, negative, neutral} the rate is constantly 1.0 and the pitch
constantly 0. -/
theorem synthesis_params_amended :
    (voiceFor "positive").name = "ar-XA-Standard-B" ∧
    (voiceFor "negative").name = "ar-XA-Standard-D" ∧
    (voiceFor "neutral").name = "ar-XA-Standard-D" ∧
    audioConfigFor "positive" = { speaking_rate_x10 := 10, pitch := 0 } ∧
    audioConfigFor "negative" = { speaking_rate_x10 := 10, pitch := 0 } ∧
    audioConfigFor "neutral" = { speaking_rate_x10 := 10, pitch := 0 } ∧
    audioConfigFor "happy" = { speaking_rate_x10 := 12, pitch := 0 } ∧
    audioConfigFor "excited" = { speaking_rate_x10 := 10, pitch := 2 } :=
  ⟨rfl, rfl, rfl, rfl, rfl, rfl, rfl, rfl⟩

end MKAI
